import Mathlib

/-!
Verification development for the Nomad fragments in this repository:
the `jobspec2` HCL-to-job-specification decoder (`hcl_conversions.go`)
and the raw-exec task-driver process-supervision core described by the
design document and exercised by the driver test suite.

The decoder functions (`decodeAffinity`, `decodeConstraint`, the
task-group vault merge of `decodeTaskGroup`) are embedded directly from
the Go source. The driver core itself (Validate, StartTask, WaitTask,
SignalTask, InspectTask, DestroyTask, RecoverTask and the ExitResult
type) is not part of the visible sources — only its tests are — so it is
modelled from the specification, as noted on each definition.
-/

namespace jobspec2

/- Constraint/affinity operand constants, from the `api` package
(`api/constraint.go` / `api/affinity.go`): each shortcut attribute name
doubles as the operand value it selects. -/

def ConstraintVersion : String := "version"

def ConstraintSemver : String := "semver"

def ConstraintRegex : String := "regexp"

def ConstraintSetContains : String := "set_contains"

def ConstraintSetContainsAll : String := "set_contains_all"

def ConstraintSetContainsAny : String := "set_contains_any"

def ConstraintDistinctHosts : String := "distinct_hosts"

def ConstraintDistinctProperty : String := "distinct_property"

/-- Result of `hcldec.Decode(body, affinitySpec, ctx)`: every attribute in
`affinitySpec` is optional (`Required: false`), so each field is `Option`,
`none` standing for a null (absent) cty value. The Go field `attribute`
is rendered `attributeVal` (keyword clash) and `regexp` as `regexpVal`. -/
structure AffinityBody where
  attributeVal : Option String
  value : Option String
  operator : Option String
  weight : Option Int
  version : Option String
  semver : Option String
  regexpVal : Option String
  setContains : Option String
  setContainsAll : Option String
  setContainsAny : Option String
  deriving DecidableEq

/-- The helper closure `attr` in `decodeAffinity` / `decodeConstraint`:
a null attribute decodes to the empty string, otherwise `AsString`. -/
def attrOf (a : Option String) : String := a.getD ""

/-- Two's-complement truncation to `int8`, as in Go `int8(w)` on an `int64`. -/
def wrapInt8 (w : Int) : Int := (w + 128) % 256 - 128

/-- `api.Affinity`: the fields written by `decodeAffinity`. -/
structure Affinity where
  LTarget : String
  RTarget : String
  Operand : String
  Weight : Option Int
  deriving DecidableEq

/-- Embedding of `decodeAffinity` (hcl_conversions.go): base fields come
from `attribute`/`value`/`operator`/`weight`, then the shortcut
attributes `version`, `semver`, `regexp`, `set_contains_any`,
`set_contains_all`, `set_contains` each override `Operand`/`RTarget`
when non-empty (in that source order), and an empty `Operand` finally
defaults to `"="`. -/
def decodeAffinity (v : AffinityBody) : Affinity :=
  let a0 : Affinity :=
    { LTarget := attrOf v.attributeVal
      RTarget := attrOf v.value
      Operand := attrOf v.operator
      Weight := v.weight.map wrapInt8 }
  let a1 := if attrOf v.version ≠ "" then
    { a0 with Operand := ConstraintVersion, RTarget := attrOf v.version } else a0
  let a2 := if attrOf v.semver ≠ "" then
    { a1 with Operand := ConstraintSemver, RTarget := attrOf v.semver } else a1
  let a3 := if attrOf v.regexpVal ≠ "" then
    { a2 with Operand := ConstraintRegex, RTarget := attrOf v.regexpVal } else a2
  let a4 := if attrOf v.setContainsAny ≠ "" then
    { a3 with Operand := ConstraintSetContainsAny, RTarget := attrOf v.setContainsAny } else a3
  let a5 := if attrOf v.setContainsAll ≠ "" then
    { a4 with Operand := ConstraintSetContainsAll, RTarget := attrOf v.setContainsAll } else a4
  let a6 := if attrOf v.setContains ≠ "" then
    { a5 with Operand := ConstraintSetContains, RTarget := attrOf v.setContains } else a5
  if a6.Operand = "" then { a6 with Operand := "=" } else a6

/-- Result of `hcldec.Decode(body, constraintSpec, ctx)`; all attributes
optional. `distinct_hosts` is a `cty.Bool` attribute, the rest strings.
`set_contains_all`, `set_contains_any`, `is_set`, `is_not_set` are
decoded by the spec but never consulted by `decodeConstraint`. -/
structure ConstraintBody where
  attributeVal : Option String
  value : Option String
  operator : Option String
  distinctProperty : Option String
  distinctHosts : Option Bool
  regexpVal : Option String
  version : Option String
  semver : Option String
  setContains : Option String
  setContainsAll : Option String
  setContainsAny : Option String
  attributeIsSet : Option String
  attributeIsNotSet : Option String
  deriving DecidableEq

/-- `api.Constraint`: the fields written by `decodeConstraint`. -/
structure Constraint where
  LTarget : String
  RTarget : String
  Operand : String
  deriving DecidableEq

/-- Embedding of `decodeConstraint` (hcl_conversions.go): base fields from
`attribute`/`value`/`operator`; shortcuts `version`, `semver`, `regexp`,
`set_contains` override `Operand`/`RTarget` when non-empty; a non-null
`distinct_hosts` bool sets `Operand` and renders the bool into `RTarget`
(Go `fmt.Sprint`); a non-empty `distinct_property` sets `Operand` and
`LTarget`; an empty `Operand` finally defaults to `"="`. -/
def decodeConstraint (v : ConstraintBody) : Constraint :=
  let c0 : Constraint :=
    { LTarget := attrOf v.attributeVal
      RTarget := attrOf v.value
      Operand := attrOf v.operator }
  let c1 := if attrOf v.version ≠ "" then
    { c0 with Operand := ConstraintVersion, RTarget := attrOf v.version } else c0
  let c2 := if attrOf v.semver ≠ "" then
    { c1 with Operand := ConstraintSemver, RTarget := attrOf v.semver } else c1
  let c3 := if attrOf v.regexpVal ≠ "" then
    { c2 with Operand := ConstraintRegex, RTarget := attrOf v.regexpVal } else c2
  let c4 := if attrOf v.setContains ≠ "" then
    { c3 with Operand := ConstraintSetContains, RTarget := attrOf v.setContains } else c3
  let c5 := match v.distinctHosts with
    | some b => { c4 with Operand := ConstraintDistinctHosts, RTarget := toString b }
    | none => c4
  let c6 := if attrOf v.distinctProperty ≠ "" then
    { c5 with Operand := ConstraintDistinctProperty, LTarget := attrOf v.distinctProperty } else c5
  if c6.Operand = "" then { c6 with Operand := "=" } else c6

/-- `api.Vault` as far as the task-group merge is concerned: the merge
copies the whole (pointer to the) structure, so only identity matters;
a representative pair of fields keeps the type honest. -/
structure Vault where
  policies : List String
  changeMode : String
  deriving DecidableEq

/-- The slice of `api.Task` visible to the vault merge. -/
structure Task where
  name : String
  vault : Option Vault
  deriving DecidableEq

/-- Embedding of the group-vault merge inside `decodeTaskGroup`
(hcl_conversions.go lines 299-305): when the group body carried a
`vault` block (`tgExtra.Vault != nil`), every decoded task whose own
`Vault` is nil receives the group vault; tasks with their own vault are
left alone. -/
def applyGroupVault (tgVault : Option Vault) (tasks : List Task) : List Task :=
  match tgVault with
  | none => tasks
  | some v => tasks.map fun t => if t.vault = none then { t with vault := some v } else t

end jobspec2

namespace rawexec

/-- Modelled from the spec: `ExitResult`, the terminal outcome of a task —
"exit code (integer, -1 if the process could not report one, e.g. was
killed externally), signal (0 if none), OOM-killed flag, and an optional
error" (spec section 3). -/
structure ExitResult where
  exitCode : Int
  signal : Nat
  oomKilled : Bool
  err : Option String
  deriving DecidableEq

/-- Modelled from the spec: the `Successful()` predicate over ExitResult —
"exit code is zero AND signal is zero AND no error is set AND not
OOM-killed" (spec section 4.3). -/
def ExitResult.Successful (r : ExitResult) : Bool :=
  r.exitCode == 0 && r.signal == 0 && r.err == none && !r.oomKilled

/-- Modelled from the spec: task lifecycle states — "Pending → Running →
Exited", no transition leaves Exited (spec section 4.4). -/
inductive TaskState
  | pending
  | running
  | exited
  deriving DecidableEq

/-- Modelled from the spec: the driver-facing error taxonomy entries the
supervision calls return synchronously (spec section 7). -/
inductive DriverError
  | errTaskNotFound
  | processError (msg : String)
  deriving DecidableEq

/-- Modelled from the spec: `TaskConfig` — identity, command, arguments
and the requested execution user (empty string means unset), the fields
the supervision claims consult (spec section 3). -/
structure TaskConfig where
  id : String
  name : String
  user : String
  command : String
  args : List String
  deriving DecidableEq

/-- Modelled from the spec: the driver configuration blob carrying the
denylist of numeric execution identities (spec sections 3 and 4.2). -/
structure Config where
  enabled : Bool
  deniedHostUids : List Nat
  deriving DecidableEq

/-- Modelled from the spec: the host's user database and the supervisor
process's own ambient identity, against which `config.User` resolves
(spec section 4.1). -/
structure Host where
  users : List (String × Nat)
  currentName : String
  currentUid : Nat
  deriving DecidableEq

/-- Modelled from the spec: resolving a named user on the host; `none`
when "resolution fails" (spec section 4.1). -/
def resolveUser (h : Host) (name : String) : Option Nat :=
  h.users.lookup name

/-- Modelled from the spec: the effective execution identity — "if
`config.User` is empty, uses the supervisor process's own identity;
otherwise resolves the named user" (spec sections 4.1 and 4.2). -/
def effectiveUid (h : Host) (user : String) : Option Nat :=
  if user = "" then some h.currentUid else resolveUser h user

/-- Modelled from the spec: `Validate(driverConfig, taskConfig)` —
computes the effective identity precisely as the launcher will and
rejects (`some` policy-violation message, `none` meaning Go `nil`) when
that identity appears in the denylist; the message "must name the denied
identity (\"running as uid <uid> is disallowed\")" (spec section 4.2). -/
def Validate (cfg : Config) (h : Host) (tc : TaskConfig) : Option String :=
  match effectiveUid h tc.user with
  | none => none
  | some uid =>
    if uid ∈ cfg.deniedHostUids then
      some ("running as uid " ++ toString uid ++ " is disallowed")
    else none

/-- Modelled from the spec: the in-memory supervised-task record — the
reattachment data (pid, start time), lifecycle state, the cached
terminal ExitResult ("produced exactly once ... then immutable"), plus
the child's observable behaviour: its trap table (signal ↦ exit code it
exits with when that signal is trapped) and the pids of descendant
processes it forked (spec sections 3, 4.3, 4.4). -/
structure TaskEntry where
  id : String
  name : String
  uid : Nat
  pid : Nat
  startedAt : Nat
  state : TaskState
  traps : List (Nat × Int)
  descendants : List Nat
  exitResult : Option ExitResult
  deriving DecidableEq

/-- Modelled from the spec: `TaskHandle`, the opaque serializable
reattachment descriptor — "process ID, supervisor connection info,
creation timestamp, sufficient to reconstruct supervision state after an
agent restart" (spec sections 3 and 6). -/
structure TaskHandle where
  id : String
  name : String
  uid : Nat
  pid : Nat
  startedAt : Nat
  state : TaskState
  deriving DecidableEq

/-- Modelled from the spec: the `InspectTask` read-only snapshot of a
task's current state (spec section 4.4). `startedAt` is a wall-clock
timestamp, not an elapsed counter. -/
structure TaskStatus where
  id : String
  name : String
  state : TaskState
  startedAt : Nat
  deriving DecidableEq

/-- Modelled from the spec: the driver's concurrency-safe task registry
keyed by TaskID, "the only shared mutable structure" (spec section 5),
here a list of entries keyed by their `id` field. -/
structure Driver where
  tasks : List TaskEntry
  deriving DecidableEq

/-- Registry lookup by TaskID. -/
def findTask (l : List TaskEntry) (id : String) : Option TaskEntry :=
  l.find? fun e => e.id == id

def Driver.lookup (d : Driver) (id : String) : Option TaskEntry :=
  findTask d.tasks id

/-- Point update of the registry at one TaskID. -/
def Driver.update (d : Driver) (id : String) (f : TaskEntry → TaskEntry) : Driver :=
  { tasks := d.tasks.map fun e => if e.id == id then f e else e }

/-- Modelled from the spec: the world the driver acts on — its registry
plus the OS process table, "the source of truth for \"is it still
alive\"" (spec section 9). -/
structure World where
  driver : Driver
  procs : List Nat
  deriving DecidableEq

/-- A pid is alive when the OS process table contains it. -/
def isRunning (procs : List Nat) (pid : Nat) : Bool :=
  procs.contains pid

/-- Modelled from the spec: signalling a pid (the probe the
destroy-kills-all scenario performs): delivery fails when the process is
gone (spec section 8). -/
def signalPid (procs : List Nat) (pid : Nat) : Except String Unit :=
  if procs.contains pid then Except.ok ()
  else Except.error ("failed to signal process: no such process " ++ toString pid)

/-- Numeric value of SIGUSR1 on Linux, the platform the signal scenario
targets (signal delivery is by name, mapped to the platform signal;
spec section 6). -/
def SIGUSR1 : Nat := 10

/-- A fresh registry entry for a just-launched task. -/
def newEntry (tc : TaskConfig) (uid pid startedAt : Nat)
    (traps : List (Nat × Int)) (descendants : List Nat) : TaskEntry :=
  { id := tc.id
    name := tc.name
    uid := uid
    pid := pid
    startedAt := startedAt
    state := TaskState.running
    traps := traps
    descendants := descendants
    exitResult := none }

/-- Modelled from the spec: `StartTask` — resolves the execution identity
("if `config.User` is empty, uses the supervisor process's own identity;
otherwise resolves the named user, failing with `UnknownUserError` if
resolution fails, observed user-facing message \"unknown user <name>\"",
spec section 4.1); on failure no process is spawned; on success spawns
exactly one child process (its fresh pid supplied by the OS) and records
the task as Running. The child's trap table and forked descendants stand
for the semantics of the launched command. -/
def StartTask (host : Host) (w : World) (tc : TaskConfig) (pid startedAt : Nat)
    (traps : List (Nat × Int)) (descendants : List Nat) : Except String World :=
  match effectiveUid host tc.user with
  | none => Except.error ("unknown user " ++ tc.user)
  | some uid =>
    Except.ok
      { driver := { tasks := newEntry tc uid pid startedAt traps descendants :: w.driver.tasks }
        procs := pid :: w.procs ++ descendants }

/-- Modelled from the spec: a snapshot of an entry as `InspectTask`
reports it (spec section 4.4). -/
def statusOf (e : TaskEntry) : TaskStatus :=
  { id := e.id, name := e.name, state := e.state, startedAt := e.startedAt }

/-- Modelled from the spec: `InspectTask` — read-only snapshot; fails
with `ErrTaskNotFound` when the TaskID is unknown or already destroyed
(spec sections 4.4, 4.3 Destroy, 7). -/
def inspectTask (d : Driver) (id : String) : Except DriverError TaskStatus :=
  match d.lookup id with
  | none => Except.error DriverError.errTaskNotFound
  | some e => Except.ok (statusOf e)

/-- Modelled from the spec: `WaitTask` resolved non-blockingly — `ok none`
stands for a wait still pending (the task has not reached a terminal
result), `ok (some r)` for a wait call that resolves with the cached
terminal ExitResult (spec section 4.3 Wait). -/
def waitTask (d : Driver) (id : String) : Except DriverError (Option ExitResult) :=
  match d.lookup id with
  | none => Except.error DriverError.errTaskNotFound
  | some e => Except.ok e.exitResult

/-- Marking an entry terminal with its (immutable, cached) ExitResult. -/
def terminate (e : TaskEntry) (r : ExitResult) : TaskEntry :=
  { e with state := TaskState.exited, exitResult := some r }

/-- Modelled from the spec: the ExitResult the supervisor reports when its
own watchdog process is killed out-of-band — "subsequent Wait calls must
resolve with an error-bearing ExitResult (exit code -1, OOMKilled=false)
rather than hang indefinitely" (spec section 4.3 crash detection). -/
def executorCrashResult : ExitResult :=
  { exitCode := -1
    signal := 0
    oomKilled := false
    err := some "executor: connection lost to supervising process" }

/-- Modelled from the spec: the out-of-band kill of the supervising
executor process of one task — "the supervisor treats loss of its own
control channel as a terminal, non-recoverable task outcome" (spec
section 4.3): the task's wait resolves with `executorCrashResult`. -/
def executorKilled (d : Driver) (id : String) : Driver :=
  d.update id fun e => terminate e executorCrashResult

/-- Modelled from the spec: the terminal ExitResult after a signal is
delivered to the child — if the child traps the signal and exits with a
code, that code is reported as a normal exit (signal 0); "if the child
process terminates due to a delivered signal before exiting normally,
ExitResult must report the numeric signal value and a non-zero/failure
exit code" (spec section 4.3), the exit code being -1 since the process
could not report one (spec section 3). -/
def signalOutcome (traps : List (Nat × Int)) (sig : Nat) : ExitResult :=
  match traps.lookup sig with
  | some code => { exitCode := code, signal := 0, oomKilled := false, err := none }
  | none => { exitCode := -1, signal := sig, oomKilled := false, err := none }

/-- Modelled from the spec: `SignalTask` — "delivers the named OS signal;
fails with `ErrTaskNotFound` if the task is unknown, and with
`ProcessError` if delivery fails (e.g., process already gone)" (spec
section 4.3); the child then terminates per `signalOutcome`. -/
def signalTask (d : Driver) (id : String) (sig : Nat) : Except DriverError Driver :=
  match d.lookup id with
  | none => Except.error DriverError.errTaskNotFound
  | some e =>
    if e.state = TaskState.exited then
      Except.error (DriverError.processError "process already gone")
    else Except.ok (d.update id fun x => terminate x (signalOutcome x.traps sig))

/-- Modelled from the spec: `DestroyTask(force)` — "terminates the process
(if still running and `force` is true, otherwise requires it to already
be terminal) and releases all resources ... After Destroy, the TaskID is
no longer known to the supervisor" (spec section 4.3): the entry leaves
the registry and the child process together with every descendant it
forked leaves the process table. -/
def destroyTask (w : World) (id : String) (force : Bool) : Except DriverError World :=
  match w.driver.lookup id with
  | none => Except.error DriverError.errTaskNotFound
  | some e =>
    if e.state ≠ TaskState.exited ∧ ¬ force then
      Except.error (DriverError.processError "cannot destroy running task")
    else
      Except.ok
        { driver := { tasks := w.driver.tasks.filter fun x => x.id != id }
          procs := w.procs.filter fun p => !(e.pid :: e.descendants).contains p }

/-- The persisted reattachment descriptor of a live entry. -/
def handleOf (e : TaskEntry) : TaskHandle :=
  { id := e.id, name := e.name, uid := e.uid, pid := e.pid,
    startedAt := e.startedAt, state := e.state }

/-- Rebuilding a registry entry from a persisted handle on recovery: the
supervision data comes back from the handle; the child's behavioural
annotations (trap table, forked descendants) are not part of the
persisted state. -/
def entryOfHandle (h : TaskHandle) : TaskEntry :=
  { id := h.id
    name := h.name
    uid := h.uid
    pid := h.pid
    startedAt := h.startedAt
    state := h.state
    traps := []
    descendants := []
    exitResult := none }

/-- Modelled from the spec: `RecoverTask(handle)` — "given a previously
persisted handle, must reattach to a still-running process without
restarting it, restoring state to Running"; when the handle refers to a
process that no longer exists, recovery fails, surfacing
`ErrTaskNotFound` (spec section 4.4); the OS process table is the source
of truth for liveness (spec section 9). -/
def recoverTask (procs : List Nat) (d : Driver) (h : TaskHandle) :
    Except DriverError Driver :=
  if isRunning procs h.pid then
    Except.ok { tasks := entryOfHandle h :: d.tasks }
  else Except.error DriverError.errTaskNotFound

/-- A concrete running task whose child traps SIGUSR1 (exiting with code
3, like the `test.sh` of the signal scenario) and has forked two
descendant processes. -/
def demoEntry : TaskEntry :=
  { id := "task1", name := "sleep", uid := 0, pid := 42, startedAt := 5,
    state := TaskState.running, traps := [(SIGUSR1, 3)], descendants := [43, 44],
    exitResult := none }

/-- A concrete running task whose child traps no signal at all. -/
def demoEntry2 : TaskEntry :=
  { id := "task2", name := "work", uid := 0, pid := 50, startedAt := 7,
    state := TaskState.running, traps := [], descendants := [],
    exitResult := none }

/-- A concrete driver supervising both demo tasks. -/
def demoDriver : Driver := { tasks := [demoEntry, demoEntry2] }

/-- The demo driver together with the OS process table holding both
children and the forked descendants. -/
def demoWorld : World := { driver := demoDriver, procs := [42, 43, 44, 50] }

/-- A concrete host: one resolvable user besides the supervisor's own
root identity. -/
def demoHost : Host := { users := [("alice", 1000)], currentName := "root", currentUid := 0 }

end rawexec

namespace jobspec2

/-- C9: in an affinity or constraint block where the `operator` attribute
is absent or empty and none of the shortcut attributes (version, semver,
regexp, set_contains, set_contains_all, set_contains_any,
distinct_hosts, distinct_property) is present with a value, the decoded
`Operand` field defaults to `"="`. -/
theorem C9_default_operand_eq (a : AffinityBody) (c : ConstraintBody)
    (haOp : attrOf a.operator = "")
    (ha1 : attrOf a.version = "") (ha2 : attrOf a.semver = "")
    (ha3 : attrOf a.regexpVal = "") (ha4 : attrOf a.setContains = "")
    (ha5 : attrOf a.setContainsAll = "") (ha6 : attrOf a.setContainsAny = "")
    (hcOp : attrOf c.operator = "")
    (hc1 : attrOf c.version = "") (hc2 : attrOf c.semver = "")
    (hc3 : attrOf c.regexpVal = "") (hc4 : attrOf c.setContains = "")
    (hc5 : c.distinctHosts = none) (hc6 : attrOf c.distinctProperty = "") :
    (decodeAffinity a).Operand = "=" ∧ (decodeConstraint c).Operand = "=" := by
  constructor
  · simp [decodeAffinity, haOp, ha1, ha2, ha3, ha4, ha5, ha6]
  · simp [decodeConstraint, hcOp, hc1, hc2, hc3, hc4, hc5, hc6]

/-- Witness for C9 on a concrete affinity and constraint body with only
`attribute`/`value` populated. -/
theorem C9_default_operand_eq_witness :
    (decodeAffinity
      { attributeVal := some "kernel.name", value := some "linux", operator := none,
        weight := some 50, version := none, semver := none, regexpVal := none,
        setContains := none, setContainsAll := none, setContainsAny := none }).Operand = "=" ∧
    (decodeConstraint
      { attributeVal := some "kernel.name", value := some "linux", operator := none,
        distinctProperty := none, distinctHosts := none, regexpVal := none,
        version := none, semver := none, setContains := none, setContainsAll := none,
        setContainsAny := none, attributeIsSet := none, attributeIsNotSet := none }).Operand = "=" :=
  C9_default_operand_eq _ _ rfl rfl rfl rfl rfl rfl rfl rfl rfl rfl rfl rfl rfl rfl

/-- C10: when a task group carries a group-level vault block, each task
at a position whose own vault is nil after decoding receives the group
vault, and each task that defined its own vault block is unchanged. -/
theorem C10_group_vault_merge (v : Vault) (tasks : List Task) (i : Nat)
    (h : i < tasks.length) :
    (applyGroupVault (some v) tasks).length = tasks.length ∧
    ∀ h2 : i < (applyGroupVault (some v) tasks).length,
      ((tasks.get ⟨i, h⟩).vault = none →
        (applyGroupVault (some v) tasks).get ⟨i, h2⟩ =
          { tasks.get ⟨i, h⟩ with vault := some v }) ∧
      ((tasks.get ⟨i, h⟩).vault ≠ none →
        (applyGroupVault (some v) tasks).get ⟨i, h2⟩ = tasks.get ⟨i, h⟩) := by
  refine ⟨by simp [applyGroupVault], fun h2 => ⟨fun hv => ?_, fun hv => ?_⟩⟩
  · simp only [List.get_eq_getElem] at hv ⊢
    simp [applyGroupVault, hv]
  · simp only [List.get_eq_getElem] at hv ⊢
    simp [applyGroupVault, hv]

/-- Witness for C10 on a two-task group: the first task has no vault of
its own, the second does. -/
theorem C10_group_vault_merge_witness :
    (0 : Nat) < ([⟨"api", none⟩, ⟨"db", some ⟨["pol"], "noop"⟩⟩] : List Task).length ∧
    (applyGroupVault (some ⟨["grouppol"], "restart"⟩)
        [⟨"api", none⟩, ⟨"db", some ⟨["pol"], "noop"⟩⟩]).length =
      ([⟨"api", none⟩, ⟨"db", some ⟨["pol"], "noop"⟩⟩] : List Task).length :=
  ⟨by decide,
    (C10_group_vault_merge ⟨["grouppol"], "restart"⟩
      [⟨"api", none⟩, ⟨"db", some ⟨["pol"], "noop"⟩⟩] 0 (by decide)).1⟩

end jobspec2

namespace rawexec

/-- A registry lookup that succeeds returns an entry whose `id` is the
looked-up TaskID. -/
theorem findTask_some_id (l : List TaskEntry) (id : String) (e : TaskEntry)
    (h : findTask l id = some e) : e.id = id := by
  have := List.find?_some h
  exact eq_of_beq this

/-- Point-updating the registry at a TaskID rewrites exactly the entry a
lookup at that TaskID returns, provided the update keeps the `id`. -/
theorem findTask_update (l : List TaskEntry) (id : String) (f : TaskEntry → TaskEntry)
    (hf : ∀ x, (f x).id = x.id) :
    findTask (l.map fun x => if x.id == id then f x else x) id =
      (findTask l id).map f := by
  induction l with
  | nil => rfl
  | cons e l ih =>
    simp only [List.map_cons, findTask] at ih ⊢
    cases hc : e.id == id with
    | true =>
      have hid : ((f e).id == id) = true := by
        have h : e.id = id := by simpa using hc
        simp [hf, h]
      simp [List.find?, hc, hid]
    | false =>
      simp only [List.find?, hc] at ih ⊢
      simp [hc] at ih ⊢
      exact ih

/-- Removing a TaskID from the registry makes lookups at that TaskID
fail. -/
theorem findTask_filter_self (l : List TaskEntry) (id : String) :
    findTask (l.filter fun x => x.id != id) id = none := by
  induction l with
  | nil => rfl
  | cons e l ih =>
    by_cases h : e.id = id
    · rw [List.filter_cons, if_neg (by simp [h])]
      exact ih
    · rw [List.filter_cons, if_pos (by simp [h])]
      unfold findTask
      rw [List.find?_cons_of_neg _ (by simp [h])]
      exact ih

/-- C1: for a task in state Running whose supervising executor process is
killed out-of-band (the executor, not the child), a subsequent WaitTask
resolves — it does not hang — with an ExitResult having exit code -1,
OOMKilled false, Successful() false and a non-nil error. -/
theorem C1_executor_killed_wait_resolves (d : Driver) (id : String) (e : TaskEntry)
    (hl : d.lookup id = some e) (hr : e.state = TaskState.running) :
    ∃ r, waitTask (executorKilled d id) id = Except.ok (some r) ∧
      r.exitCode = -1 ∧ r.oomKilled = false ∧
      r.Successful = false ∧ r.err ≠ none := by
  refine ⟨executorCrashResult, ?_, rfl, rfl, by decide, by decide⟩
  have h := findTask_update d.tasks id (fun x => terminate x executorCrashResult)
    (fun x => rfl)
  have hl2 : findTask d.tasks id = some e := hl
  unfold waitTask executorKilled Driver.update Driver.lookup
  rw [h, hl2]
  rfl

/-- Witness for C1 on the demo driver. -/
theorem C1_executor_killed_wait_resolves_witness :
    ∃ r, waitTask (executorKilled demoDriver "task1") "task1" = Except.ok (some r) ∧
      r.exitCode = -1 ∧ r.oomKilled = false ∧
      r.Successful = false ∧ r.err ≠ none :=
  C1_executor_killed_wait_resolves demoDriver "task1" demoEntry (by decide) (by decide)

/-- C2: for a running task whose handle is persisted, RecoverTask on the
handle after an agent interruption (a driver with an empty registry)
succeeds, and the InspectTask snapshot after recovery equals the
snapshot taken before the interruption — the task is still Running. -/
theorem C2_recover_roundtrip (procs : List Nat) (d : Driver) (id : String) (e : TaskEntry)
    (hl : d.lookup id = some e) (hr : e.state = TaskState.running)
    (halive : isRunning procs e.pid = true) :
    ∃ d2, recoverTask procs (Driver.mk []) (handleOf e) = Except.ok d2 ∧
      inspectTask d2 id = inspectTask d id ∧
      inspectTask d id = Except.ok (statusOf e) ∧
      (statusOf e).state = TaskState.running := by
  have hid : e.id = id := findTask_some_id d.tasks id e hl
  have hins : inspectTask d id = Except.ok (statusOf e) := by
    unfold inspectTask
    rw [show d.lookup id = some e from hl]
  refine ⟨Driver.mk [entryOfHandle (handleOf e)], ?_, ?_, hins, hr⟩
  · simp [recoverTask, handleOf, halive]
  · rw [hins]
    unfold inspectTask Driver.lookup findTask
    rw [List.find?_cons_of_pos _ (by simp [entryOfHandle, handleOf, hid])]
    rfl

/-- Witness for C2 on the demo world. -/
theorem C2_recover_roundtrip_witness :
    ∃ d2, recoverTask [42, 43, 44, 50] (Driver.mk []) (handleOf demoEntry) = Except.ok d2 ∧
      inspectTask d2 "task1" = inspectTask demoDriver "task1" ∧
      inspectTask demoDriver "task1" = Except.ok (statusOf demoEntry) ∧
      (statusOf demoEntry).state = TaskState.running :=
  C2_recover_roundtrip [42, 43, 44, 50] demoDriver "task1" demoEntry
    (by decide) (by decide) (by decide)

/-- C3: Successful() holds iff the exit code is zero, the signal is zero,
no error is set and the task was not OOM-killed; and for a running task
whose child traps SIGUSR1 and exits with code 3, delivering SIGUSR1
makes WaitTask return an ExitResult with Successful() false and exit
code 3. -/
theorem C3_successful_iff_sigusr1_exit3 :
    (∀ r : ExitResult, r.Successful = true ↔
      (r.exitCode = 0 ∧ r.signal = 0 ∧ r.err = none ∧ r.oomKilled = false)) ∧
    (∀ (d : Driver) (id : String) (e : TaskEntry),
      d.lookup id = some e → e.state = TaskState.running →
      e.traps.lookup SIGUSR1 = some 3 →
      ∃ d2, signalTask d id SIGUSR1 = Except.ok d2 ∧
        ∃ r, waitTask d2 id = Except.ok (some r) ∧
          r.Successful = false ∧ r.exitCode = 3) := by
  constructor
  · intro r
    simp [ExitResult.Successful, and_assoc]
  · intro d id e hl hr ht
    refine ⟨d.update id fun x => terminate x (signalOutcome x.traps SIGUSR1), ?_, ?_⟩
    · simp [signalTask, hl, hr]
    · have h := findTask_update d.tasks id
        (fun x => terminate x (signalOutcome x.traps SIGUSR1)) (fun x => rfl)
      have hl2 : findTask d.tasks id = some e := hl
      refine ⟨signalOutcome e.traps SIGUSR1, ?_, ?_, ?_⟩
      · unfold waitTask Driver.lookup Driver.update
        rw [h, hl2]
        rfl
      · simp [signalOutcome, ht, ExitResult.Successful]
      · simp [signalOutcome, ht]

/-- Witness for C3's signal scenario on the demo driver. -/
theorem C3_successful_iff_sigusr1_exit3_witness :
    ∃ d2, signalTask demoDriver "task1" SIGUSR1 = Except.ok d2 ∧
      ∃ r, waitTask d2 "task1" = Except.ok (some r) ∧
        r.Successful = false ∧ r.exitCode = 3 :=
  C3_successful_iff_sigusr1_exit3.2 demoDriver "task1" demoEntry
    (by decide) (by decide) (by decide)

/-- C4: for a running task whose child terminates because of a delivered
signal it does not trap, the terminal ExitResult reports that signal's
numeric value in its Signal field and a non-zero exit code. -/
theorem C4_signal_termination_reports_signal (d : Driver) (id : String)
    (e : TaskEntry) (sig : Nat)
    (hl : d.lookup id = some e) (hr : e.state = TaskState.running)
    (ht : e.traps.lookup sig = none) (hs : 0 < sig) :
    ∃ d2, signalTask d id sig = Except.ok d2 ∧
      ∃ r, waitTask d2 id = Except.ok (some r) ∧
        r.signal = sig ∧ r.exitCode ≠ 0 := by
  refine ⟨d.update id fun x => terminate x (signalOutcome x.traps sig), ?_, ?_⟩
  · simp [signalTask, hl, hr]
  · have h := findTask_update d.tasks id
      (fun x => terminate x (signalOutcome x.traps sig)) (fun x => rfl)
    have hl2 : findTask d.tasks id = some e := hl
    refine ⟨signalOutcome e.traps sig, ?_, ?_, ?_⟩
    · unfold waitTask Driver.lookup Driver.update
      rw [h, hl2]
      rfl
    · simp [signalOutcome, ht]
    · simp [signalOutcome, ht]

/-- Witness for C4: SIGKILL (9) delivered to the demo task that traps
nothing. -/
theorem C4_signal_termination_reports_signal_witness :
    ∃ d2, signalTask demoDriver "task2" 9 = Except.ok d2 ∧
      ∃ r, waitTask d2 "task2" = Except.ok (some r) ∧
        r.signal = 9 ∧ r.exitCode ≠ 0 :=
  C4_signal_termination_reports_signal demoDriver "task2" demoEntry2 9
    (by decide) (by decide) (by decide) (by decide)

/-- C5: with `User` unset and the ambient identity on the denylist,
Validate fails with a policy violation naming that identity as "running
as uid <uid> is disallowed"; the same failure occurs when the requested
user resolves to a denied uid; and with an empty denylist Validate
returns nil. -/
theorem C5_validate_denylist (cfg : Config) (host : Host) (tc : TaskConfig) :
    (tc.user = "" → host.currentUid ∈ cfg.deniedHostUids →
      Validate cfg host tc =
        some ("running as uid " ++ toString host.currentUid ++ " is disallowed")) ∧
    (∀ u, tc.user ≠ "" → resolveUser host tc.user = some u →
      u ∈ cfg.deniedHostUids →
      Validate cfg host tc =
        some ("running as uid " ++ toString u ++ " is disallowed")) ∧
    (cfg.deniedHostUids = [] → Validate cfg host tc = none) := by
  refine ⟨fun hu hm => ?_, fun u hu hres hm => ?_, fun hden => ?_⟩
  · simp [Validate, effectiveUid, hu, hm]
  · simp [Validate, effectiveUid, hu, hres, hm]
  · unfold Validate
    cases h : effectiveUid host tc.user with
    | none => rfl
    | some uid => simp [hden]

/-- Witness for C5: ambient uid 0 denied, and the empty denylist. -/
theorem C5_validate_denylist_witness :
    Validate (Config.mk true [0]) demoHost (TaskConfig.mk "t" "n" "" "/bin/sleep" []) =
      some ("running as uid " ++ toString demoHost.currentUid ++ " is disallowed") ∧
    Validate (Config.mk true []) demoHost (TaskConfig.mk "t" "n" "" "/bin/sleep" []) = none :=
  ⟨(C5_validate_denylist (Config.mk true [0]) demoHost
      (TaskConfig.mk "t" "n" "" "/bin/sleep" [])).1 rfl (by decide),
   (C5_validate_denylist (Config.mk true []) demoHost
      (TaskConfig.mk "t" "n" "" "/bin/sleep" [])).2.2 rfl⟩

/-- C6: StartTask on a TaskConfig naming a user that cannot be resolved
fails — no process is spawned, no task registered — with the message
"unknown user <name>"; with `User` empty the supervisor's own identity
is used and the launch succeeds. -/
theorem C6_start_unknown_user (host : Host) (w : World) (tc : TaskConfig)
    (pid startedAt : Nat) (traps : List (Nat × Int)) (descs : List Nat) :
    (tc.user ≠ "" → resolveUser host tc.user = none →
      StartTask host w tc pid startedAt traps descs =
        Except.error ("unknown user " ++ tc.user)) ∧
    (tc.user = "" →
      StartTask host w tc pid startedAt traps descs =
        Except.ok
          { driver :=
              { tasks := newEntry tc host.currentUid pid startedAt traps descs :: w.driver.tasks }
            procs := pid :: w.procs ++ descs }) := by
  refine ⟨fun hu hres => ?_, fun hu => ?_⟩
  · simp [StartTask, effectiveUid, hu, hres]
  · simp [StartTask, effectiveUid, hu]

/-- Witness for C6: the unresolvable user "bob" and the empty user. -/
theorem C6_start_unknown_user_witness :
    StartTask demoHost demoWorld (TaskConfig.mk "t3" "n" "bob" "/bin/sleep" []) 60 9 [] [] =
      Except.error ("unknown user " ++ "bob") ∧
    StartTask demoHost demoWorld (TaskConfig.mk "t4" "n" "" "/bin/sleep" []) 61 9 [] [] =
      Except.ok
        { driver :=
            { tasks := newEntry (TaskConfig.mk "t4" "n" "" "/bin/sleep" [])
                demoHost.currentUid 61 9 [] [] :: demoWorld.driver.tasks }
          procs := 61 :: demoWorld.procs ++ [] } :=
  ⟨(C6_start_unknown_user demoHost demoWorld
      (TaskConfig.mk "t3" "n" "bob" "/bin/sleep" []) 60 9 [] []).1 (by decide) (by decide),
   (C6_start_unknown_user demoHost demoWorld
      (TaskConfig.mk "t4" "n" "" "/bin/sleep" []) 61 9 [] []).2 rfl⟩

/-- C7: after DestroyTask(force=true) on a task that forked a long-lived
descendant, no descendant process of the task is still running:
signalling the descendant's pid fails. -/
theorem C7_destroy_kills_descendants (w : World) (id : String) (e : TaskEntry) (p : Nat)
    (hl : w.driver.lookup id = some e) (hp : p ∈ e.descendants) :
    ∃ w2, destroyTask w id true = Except.ok w2 ∧
      isRunning w2.procs p = false ∧
      ∃ msg, signalPid w2.procs p = Except.error msg := by
  have hw : destroyTask w id true =
      Except.ok
        { driver := { tasks := w.driver.tasks.filter fun x => x.id != id }
          procs := w.procs.filter fun q => !(e.pid :: e.descendants).contains q } := by
    simp [destroyTask, hl]
  have hrun :
      isRunning (w.procs.filter fun q => !(e.pid :: e.descendants).contains q) p = false := by
    simp [isRunning, List.mem_filter]
    intro hmem
    simp [hp]
  have hrun2 := hrun
  simp only [isRunning] at hrun2
  refine ⟨_, hw, hrun, "failed to signal process: no such process " ++ toString p, ?_⟩
  unfold signalPid
  rw [if_neg (by simp [hrun2]; exact fun _ _ => hp)]

/-- Witness for C7: destroying the demo task kills its forked descendant
43. -/
theorem C7_destroy_kills_descendants_witness :
    ∃ w2, destroyTask demoWorld "task1" true = Except.ok w2 ∧
      isRunning w2.procs 43 = false ∧
      ∃ msg, signalPid w2.procs 43 = Except.error msg :=
  C7_destroy_kills_descendants demoWorld "task1" demoEntry 43 (by decide) (by decide)

/-- C8: InspectTask on a TaskID unknown to the driver fails with exactly
ErrTaskNotFound, and so does InspectTask on a TaskID whose task was just
destroyed (removed from the registry). -/
theorem C8_inspect_unknown_not_found (d : Driver) (w : World) (id id2 : String)
    (force : Bool) (hunk : d.lookup id = none) :
    inspectTask d id = Except.error DriverError.errTaskNotFound ∧
    ∀ w2, destroyTask w id2 force = Except.ok w2 →
      inspectTask w2.driver id2 = Except.error DriverError.errTaskNotFound := by
  constructor
  · unfold inspectTask
    rw [show d.lookup id = none from hunk]
  · intro w2 hdes
    cases hl : w.driver.lookup id2 with
    | none =>
      simp only [destroyTask, hl] at hdes
      exact Except.noConfusion hdes
    | some e =>
      simp only [destroyTask, hl] at hdes
      by_cases hc : e.state ≠ TaskState.exited ∧ ¬ force
      · rw [if_pos hc] at hdes
        simp at hdes
      · rw [if_neg hc] at hdes
        simp only [Except.ok.injEq] at hdes
        subst hdes
        unfold inspectTask Driver.lookup
        rw [show findTask (List.filter (fun x => x.id != id2) w.driver.tasks) id2 = none from
          findTask_filter_self w.driver.tasks id2]

/-- Witness for C8: the unknown TaskID "ghost", and "task1" after its
destruction. -/
theorem C8_inspect_unknown_not_found_witness :
    inspectTask demoDriver "ghost" = Except.error DriverError.errTaskNotFound ∧
    inspectTask (Driver.mk [demoEntry2]) "task1" = Except.error DriverError.errTaskNotFound :=
  ⟨(C8_inspect_unknown_not_found demoDriver demoWorld "ghost" "task1" true (by decide)).1,
   (C8_inspect_unknown_not_found demoDriver demoWorld "ghost" "task1" true (by decide)).2
     (World.mk (Driver.mk [demoEntry2]) [50]) rfl⟩

end rawexec
